import Mathlib

/-!
Shallow embedding of `gather_data.py`: an ingestion pipeline that fetches
paginated listing items, extracts an embedded EXIF user comment and rendered
tags, deduplicates candidates against a persistent store and an in-memory
set, and maintains per-run session state (counters, recent-user timestamps,
processed-id set, bounded history buffer).

External effects (HTTP, Selenium, DuckDB, the filesystem) are modelled as
oracle inputs: each item event carries the outcomes the environment would
produce (download success, raw EXIF comment value, per-attempt rendering
outcomes, store-insert success).  Pure computations of the source
(`decode_user_comment`, the dedup tests, the loop-state updates) are
translated directly.
-/

/-- The fixed `CONFIG` dictionary of the source (module constants). -/
structure Config where
  MAX_RETRIES : Nat
  RETRY_DELAY : Nat
  SIMILARITY_THRESHOLD : Rat
  TIME_THRESHOLD : Int
  IMAGES_TO_PROCESS : Nat
  REFRESH_INTERVAL : Nat
  FETCH_BUFFER : Nat
  MAX_RECENT_POSTS_PER_USER : Nat
  API_KEY : String
  DB_PATH : String
  PROCESS_THRESHOLD : Nat
  PAUSE_DURATION : Nat
  MAX_DRIVER_RETRIES : Nat
deriving DecidableEq

/-- The literal values of the source's `CONFIG` dictionary. -/
def CONFIG : Config where
  MAX_RETRIES := 3
  RETRY_DELAY := 5
  SIMILARITY_THRESHOLD := 7 / 10
  TIME_THRESHOLD := 1
  IMAGES_TO_PROCESS := 50
  REFRESH_INTERVAL := 1
  FETCH_BUFFER := 100
  MAX_RECENT_POSTS_PER_USER := 1
  API_KEY := "api_key"
  DB_PATH := "images.db"
  PROCESS_THRESHOLD := 100
  PAUSE_DURATION := 120
  MAX_DRIVER_RETRIES := 3

/-! ## Byte strings and Python's codec semantics

`decode_user_comment` receives the raw EXIF `UserComment` value.  A Python
`bytes` object is a list of byte values; any other value is represented by
its `str()` image (only its string coercion is ever observed by the code).
The three codecs invoked by the source (`utf-16-be`, `utf-8`, `ascii`, all
in strict mode) are platform functions; they are modelled here by faithful
executable decoders returning `none` exactly where CPython raises
`UnicodeDecodeError`. -/

/-- A Python value as observed by `decode_user_comment`: either a `bytes`
object or a non-bytes value represented by its `str()` image. -/
inductive PyValue where
  | bytes (b : List Nat)
  | strv (s : String)
deriving DecidableEq

/-- Big-endian 16-bit code units of a byte string; `none` on odd length
(CPython: truncated data error in strict `utf-16-be`). -/
def toUnits16 : List Nat → Option (List Nat)
  | [] => some []
  | [_] => none
  | b1 :: b2 :: rest => (toUnits16 rest).map (fun us => (b1 * 256 + b2) :: us)

/-- Combine UTF-16 code units into scalar values, pairing surrogates;
`none` on a lone or ill-ordered surrogate (strict mode). -/
def combineSurrogates : List Nat → Option (List Nat)
  | [] => some []
  | u :: rest =>
    if 0xD800 ≤ u ∧ u ≤ 0xDBFF then
      match rest with
      | [] => none
      | v :: rest2 =>
        if 0xDC00 ≤ v ∧ v ≤ 0xDFFF then
          (combineSurrogates rest2).map
            (fun cs => (0x10000 + (u - 0xD800) * 0x400 + (v - 0xDC00)) :: cs)
        else none
    else if 0xDC00 ≤ u ∧ u ≤ 0xDFFF then none
    else (combineSurrogates rest).map (fun cs => u :: cs)

/-- Render a list of Unicode scalar values as a `String`.  Callers only pass
validated scalar values (below 0x110000 and outside the surrogate range). -/
def scalarsToString (cs : List Nat) : String :=
  String.mk (cs.map Char.ofNat)

/-- Strict `utf-16-be` decoding of a byte string (CPython semantics). -/
def utf16beDecode (b : List Nat) : Option String :=
  ((toUnits16 b).bind combineSurrogates).map scalarsToString

/-- A UTF-8 continuation byte. -/
def utf8Cont (x : Nat) : Prop := 0x80 ≤ x ∧ x ≤ 0xBF

instance (x : Nat) : Decidable (utf8Cont x) := by unfold utf8Cont; infer_instance

/-- Strict UTF-8 decoding to scalar values, rejecting overlong forms,
surrogates and values above 0x10FFFF (CPython strict `utf-8`). -/
def utf8Scalars : List Nat → Option (List Nat)
  | [] => some []
  | b :: rest =>
    if b < 0x80 then (utf8Scalars rest).map (fun cs => b :: cs)
    else if 0xC2 ≤ b ∧ b ≤ 0xDF then
      match rest with
      | c :: rest2 =>
        if utf8Cont c then
          (utf8Scalars rest2).map (fun cs => ((b - 0xC0) * 0x40 + (c - 0x80)) :: cs)
        else none
      | _ => none
    else if 0xE0 ≤ b ∧ b ≤ 0xEF then
      match rest with
      | c :: d :: rest2 =>
        let lo := if b = 0xE0 then 0xA0 else 0x80
        let hi := if b = 0xED then 0x9F else 0xBF
        if (lo ≤ c ∧ c ≤ hi) ∧ utf8Cont d then
          (utf8Scalars rest2).map
            (fun cs => ((b - 0xE0) * 0x1000 + (c - 0x80) * 0x40 + (d - 0x80)) :: cs)
        else none
      | _ => none
    else if 0xF0 ≤ b ∧ b ≤ 0xF4 then
      match rest with
      | c :: d :: e :: rest2 =>
        let lo := if b = 0xF0 then 0x90 else 0x80
        let hi := if b = 0xF4 then 0x8F else 0xBF
        if (lo ≤ c ∧ c ≤ hi) ∧ utf8Cont d ∧ utf8Cont e then
          (utf8Scalars rest2).map
            (fun cs =>
              ((b - 0xF0) * 0x40000 + (c - 0x80) * 0x1000 + (d - 0x80) * 0x40 +
                (e - 0x80)) :: cs)
        else none
      | _ => none
    else none

/-- Strict `utf-8` decoding of a byte string (CPython semantics). -/
def utf8Decode (b : List Nat) : Option String :=
  (utf8Scalars b).map scalarsToString

/-- Strict `ascii` decoding: every byte below 0x80, else `none`. -/
def asciiDecode (b : List Nat) : Option String :=
  if b.all (fun x => x < 0x80) then some (scalarsToString b) else none

/-! ### Python's `str()` coercion of bytes -/

/-- Backslash character (escape introducer of a bytes repr). -/
def backslashChar : Char := Char.ofNat 92

/-- Single-quote character. -/
def singleQuoteChar : Char := Char.ofNat 39

/-- Double-quote character. -/
def doubleQuoteChar : Char := Char.ofNat 34

/-- Lowercase hexadecimal digit. -/
def hexDigitChar (n : Nat) : Char :=
  if n < 10 then Char.ofNat (48 + n) else Char.ofNat (87 + n)

/-- CPython's repr of one byte inside a bytes literal with quote byte `q`. -/
def byteReprChars (q : Nat) (x : Nat) : List Char :=
  if x = 92 then [backslashChar, backslashChar]
  else if x = q then [backslashChar, Char.ofNat q]
  else if x = 9 then [backslashChar, Char.ofNat 116]
  else if x = 10 then [backslashChar, Char.ofNat 110]
  else if x = 13 then [backslashChar, Char.ofNat 114]
  else if 0x20 ≤ x ∧ x ≤ 0x7E then [Char.ofNat x]
  else [backslashChar, Char.ofNat 120, hexDigitChar (x / 16), hexDigitChar (x % 16)]

/-- CPython's `str()` of a `bytes` object: the `b'...'` literal (quote
switches to `"` when the bytes contain `'` but no `"`). -/
def bytesRepr (b : List Nat) : String :=
  let q : Nat := if b.contains 39 ∧ ¬ b.contains 34 then 34 else 39
  String.mk
    (Char.ofNat 98 :: Char.ofNat q ::
      (b.foldr (fun x acc => byteReprChars q x ++ acc) [Char.ofNat q]))

/-- Python's `str()` on the values `decode_user_comment` may receive. -/
def pyStr : PyValue → String
  | .bytes b => bytesRepr b
  | .strv s => s

/-! ### `decode_user_comment` (source lines 152-161) -/

/-- The 7 ASCII bytes of `b'UNICODE'`, the `startswith` test of line 155. -/
def unicodeMarker : List Nat := [85, 78, 73, 67, 79, 68, 69]

/-- `value.replace(chr(0), empty)`: drop embedded NUL characters. -/
def stripNulls (s : String) : String :=
  String.mk (s.toList.filter (fun c => c ≠ Char.ofNat 0))

/-- The source's `for encoding in [...]` loop body: try each decoder in
order, returning the first success (with NULs removed); `none` when every
decoder raises `UnicodeDecodeError`. -/
def tryEncodings : List (List Nat → Option String) → List Nat → Option String
  | [], _ => none
  | d :: ds, b =>
    match d b with
    | some s => some (stripNulls s)
    | none => tryEncodings ds b

/-- Source line 155, `value = value[8:] if value.startswith(b'UNICODE')
else value`: the `startswith` test checks the 7 marker characters and the
slice drops 8 bytes (the 8-byte `UNICODE\x00` marker field), rebinding
`value`. -/
def stripMarker (b : List Nat) : List Nat :=
  if b.take 7 = unicodeMarker then b.drop 8 else b

/-- `decode_user_comment` (source lines 152-161): for bytes, strip the
marker, then try `utf-16-be`, `utf-8`, `ascii` in order; on total failure
fall through to `str(value)` — of the rebound, already-stripped value.
Non-bytes values go straight to `str(value)`. -/
def decode_user_comment (v : PyValue) : String :=
  match v with
  | .bytes b =>
    match tryEncodings [utf16beDecode, utf8Decode, asciiDecode]
        (stripMarker b) with
    | some s => s
    | none => pyStr (.bytes (stripMarker b))
  | .strv s => pyStr (.strv s)

/-! ## Listing items and candidate records -/

/-- One listing item as returned by `fetch_images` (with the derived
`web_url` already attached, source line 104). -/
structure Item where
  id : Int
  url : String
  hash : String
  createdAt : Option String
  postId : Int
  username : String
  web_url : String
deriving DecidableEq

/-- A candidate record as assembled by `format_image_data`. -/
structure Record where
  id : Int
  url : String
  hash : String
  createdAt : Option String
  postId : Int
  username : String
  web_url : String
  tags : List String
  user_comment : String
deriving DecidableEq

/-- `standardize_date` delegates to the external `datetime` parser and
re-emits the timestamp in ISO form (or `None` on parse failure); the
normalized text is opaque to every control decision of the pipeline, so the
embedding carries the optional raw string through unchanged. -/
def standardize_date (d : Option String) : Option String := d

/-- `format_image_data` (source lines 184-197): assemble the candidate
record from the listing item, the extracted tags and the decoded comment.
The trailing `convert_numeric_fields` pass coerces numeric-looking string
fields via Python's `int`/`float` parsing; it is identity on the fields the
control logic reads and is not modelled (floating point). -/
def format_image_data (item : Item) (tags : List String) (user_comment : String) :
    Record where
  id := item.id
  url := item.url
  hash := item.hash
  createdAt := standardize_date item.createdAt
  postId := item.postId
  username := item.username
  web_url := item.web_url
  tags := tags
  user_comment := user_comment

/-! ## The rendering session: `initialize_driver` and `extract_image_details`

Selenium outcomes are oracle inputs.  A driver-creation oracle
`tries : Nat → Bool` says whether the n-th `webdriver.Firefox(...)` call
succeeds; a per-attempt oracle `att : Nat → AttemptOut` says what the n-th
extraction attempt observes. -/

deriving instance DecidableEq for Except

/-- The Python exceptions that can cross the boundaries modelled here. -/
inductive PyExc where
  | requestExc
  | webDriverExc
  | valueErrExc
deriving DecidableEq

/-- What one extraction attempt observes: a wait timeout
(`TimeoutException`), a session-level fault (`WebDriverException`, carrying
the driver-creation oracle used by the subsequent reinitialization), or a
successful page load with the raw texts of the tag-selector elements. -/
inductive AttemptOut where
  | timeoutFault
  | sessionFault (driverTries : Nat → Bool)
  | loaded (texts : List String)

/-- The retry loop of `initialize_driver` (source lines 81-90): up to
`MAX_DRIVER_RETRIES` creation attempts, then raise `WebDriverException`.
The `while retries < MAX_DRIVER_RETRIES` loop is carried structurally by
`fuel = MAX_DRIVER_RETRIES - retries`, the number of attempts left:
`fuel = 0` is exactly the loop condition failing. -/
def driverGo (tries : Nat → Bool) (retries : Nat) : Nat → Except PyExc Unit
  | 0 => .error .webDriverExc
  | fuel + 1 =>
    if tries retries then .ok () else driverGo tries (retries + 1) fuel

/-- `initialize_driver` (source lines 81-90). -/
def initialize_driver (cfg : Config) (tries : Nat → Bool) : Except PyExc Unit :=
  driverGo tries 0 cfg.MAX_DRIVER_RETRIES

/-- Python's `str.strip()`: drop leading and trailing whitespace (the
texts at issue are element texts; the ASCII whitespace class suffices). -/
def pyStrip (s : String) : String :=
  String.mk
    (((s.toList.dropWhile Char.isWhitespace).reverse.dropWhile
        Char.isWhitespace).reverse)

/-- The tag list built on a successful page load (source line 169):
non-empty stripped element texts. -/
def collectTags (texts : List String) : List String :=
  (texts.map pyStrip).filter (fun t => t ≠ "")

/-- The retry loop of `extract_image_details` (source lines 163-182).
On a loaded page with zero non-empty tags the source raises
`ValueError`, which the `except (TimeoutException, WebDriverException)`
clause does not catch, so it propagates out of the loop.  A
`TimeoutException` is caught and retried; a `WebDriverException` is caught,
the driver is torn down and reinitialized, and a reinitialization failure
(raised inside the `except` block) propagates.  When the attempt bound is
exhausted the function returns the empty tag list.
The `while retries < MAX_RETRIES` loop is carried structurally by
`fuel = MAX_RETRIES - retries`, the number of attempts left. -/
def extractGo (cfg : Config) (att : Nat → AttemptOut) (retries : Nat) :
    Nat → Except PyExc (List String)
  | 0 => .ok []
  | fuel + 1 =>
    match att retries with
    | .loaded texts =>
      let tags := collectTags texts
      if tags ≠ [] then .ok tags else .error .valueErrExc
    | .timeoutFault => extractGo cfg att (retries + 1) fuel
    | .sessionFault driverTries =>
      match initialize_driver cfg driverTries with
      | .ok _ => extractGo cfg att (retries + 1) fuel
      | .error e => .error e

/-- `extract_image_details` (source lines 163-182). -/
def extract_image_details (cfg : Config) (att : Nat → AttemptOut) :
    Except PyExc (List String) :=
  extractGo cfg att 0 cfg.MAX_RETRIES

/-! ## `process_image` -/

/-- Environment outcomes for one item's `process_image` call: whether the
content download succeeds, the raw EXIF `UserComment` value when
`extract_exif_user_comment` finds one (`none` covers a missing tag, missing
EXIF data, and any exception swallowed inside that helper), and the
per-attempt rendering outcomes. -/
structure ItemOracle where
  downloadOk : Bool
  exifComment : Option PyValue
  attempts : Nat → AttemptOut

/-- `extract_exif_user_comment` (source lines 138-150): the raw value, when
present, is decoded by `decode_user_comment`; every failure path yields
`None`. -/
def extract_exif_user_comment (o : ItemOracle) : Option String :=
  o.exifComment.map decode_user_comment

/-- The body of `process_image` (source lines 110-136) before its
`except Exception` boundary: `.error e` means the exception `e` reaches
that boundary.  A failed download raises a request exception; a missing or
empty (falsy) comment returns `None`; an empty extracted tag list returns
`None`; otherwise the formatted candidate is returned. -/
def processImageRaw (cfg : Config) (item : Item) (o : ItemOracle) :
    Except PyExc (Option Record) :=
  if ¬ o.downloadOk then .error .requestExc
  else
    match extract_exif_user_comment o with
    | none => .ok none
    | some c =>
      if c = "" then .ok none
      else
        match extract_image_details cfg o.attempts with
        | .error e => .error e
        | .ok tags =>
          if tags = [] then .ok none
          else .ok (some (format_image_data item tags c))

/-- `process_image` (source lines 110-136): the broad `except Exception`
converts every escaping exception into the no-candidate result. -/
def process_image (cfg : Config) (item : Item) (o : ItemOracle) : Option Record :=
  match processImageRaw cfg item o with
  | .error _ => none
  | .ok r => r

/-! ## Session state of the ingestion loop

`ImageProcessor` fields mutated by `process_images`, plus the store's table
(a DuckDB table, modelled as the list of inserted rows), the local `page`
variable, and a ghost trace of the quota/refresh sleep calls. -/

/-- The dedup key of the in-memory set: `(tuple(tags), user_comment)`. -/
abbrev DedupKey := List String × String

/-- Python `dict` lookup for `recent_users` (username to timestamp). -/
def lookupUser : List (String × Int) → String → Option Int
  | [], _ => none
  | (k, v) :: rest, u => if k = u then some v else lookupUser rest u

/-- Python `dict` assignment `recent_users[username] = now`: overwrite in
place or append. -/
def storeUser : List (String × Int) → String → Int → List (String × Int)
  | [], u, t => [(u, t)]
  | (k, v) :: rest, u, t =>
    if k = u then (k, t) :: rest else (k, v) :: storeUser rest u t

/-- Python `set.add`: no effect when the element is already present. -/
def setAdd {α : Type} [DecidableEq α] (s : List α) (x : α) : List α :=
  if x ∈ s then s else s ++ [x]

/-- The mutable state of one `process_images` run. -/
structure LoopState where
  processedCount : Nat
  skippedCount : Nat
  consecutiveDuplicateCount : Nat
  recentUsers : List (String × Int)
  processedIds : List Int
  previousImages : List Record
  existingEntries : List DedupKey
  db : List Record
  page : Nat
  sleeps : List Nat
deriving DecidableEq

/-- The startup state built by `__enter__`: counters zero, session sets
empty, `existing_entries_set` loaded as the distinct `(tags, user_comment)`
pairs of the store's current rows `db0`, `page = 1`. -/
def mkInitState (db0 : List Record) : LoopState where
  processedCount := 0
  skippedCount := 0
  consecutiveDuplicateCount := 0
  recentUsers := []
  processedIds := []
  previousImages := []
  existingEntries := db0.foldl (fun acc r => setAdd acc (r.tags, r.user_comment)) []
  db := db0
  page := 1
  sleeps := []

/-! ## The deduplication engine and the store -/

/-- `is_duplicate` (source lines 233-244): `COUNT(*) > 0` over rows whose
`username` matches and whose first 100 comment characters match
(`substr(..., 1, 100)`).  `queryFails` is the oracle for the `except`
branch: a raised store error is logged and answered with `False`
(fail-open). -/
def is_duplicate (queryFails : Bool) (db : List Record)
    (username user_comment : String) : Bool :=
  if queryFails then false
  else db.any (fun row =>
    row.username = username ∧ row.user_comment.take 100 = user_comment.take 100)

/-- `is_similar_entry` (source lines 224-231): membership of
`(tuple(tags), user_comment)` in the in-memory set. -/
def is_similar_entry (existingEntries : List DedupKey) (r : Record) : Bool :=
  (r.tags, r.user_comment) ∈ existingEntries

/-- `is_similar` (source lines 334-341): the fuzzy comparator.  Its
`SequenceMatcher(None, a, b).ratio()` call is an external `difflib`
computation, taken as a parameter; the function is defined by the source
but never called from `process_images`. -/
def is_similar (ratio : String → String → Rat) (cfg : Config)
    (current : Record) (previous : Option Record) : Bool :=
  match previous with
  | none => false
  | some p => ratio current.user_comment p.user_comment > cfg.SIMILARITY_THRESHOLD

/-- `insert_into_db` (source lines 246-267): on success the row is appended
to the table and the dedup key added to `existing_entries_set`; the
`except Exception` swallows a failed insert, leaving both untouched, and in
either case no exception escapes to the caller. -/
def insert_into_db (insertOk : Bool) (db : List Record)
    (existingEntries : List DedupKey) (r : Record) :
    List Record × List DedupKey :=
  if insertOk then (db ++ [r], setAdd existingEntries (r.tags, r.user_comment))
  else (db, existingEntries)

/-! ## One iteration of the item loop (source lines 282-327) -/

/-- How `process_images` classified one listing item. -/
inductive ItemResult where
  | skippedRecent
  | skippedAlready
  | noCandidate
  | skippedDupStore
  | skippedDupMemory
  | inserted (insertOk : Bool)
deriving DecidableEq

/-- Control transfer decided at the end of one item iteration:
fall through to the next item, `break` out on the processing quota, or
`return` from `process_images` on the duplicate streak. -/
inductive Control where
  | next
  | quotaBreak
  | terminated
deriving DecidableEq

/-- Environment outcomes for one item iteration: the listing item, the two
`datetime.now()` readings (at the recency test and at the insert
bookkeeping), the value returned by `process_image` (fully determined by
external I/O, hence an oracle), and the store oracles for the duplicate
query and the insert. -/
structure Event where
  item : Item
  tCheck : Int
  tIns : Int
  candidate : Option Record
  dbDupFails : Bool
  insertOk : Bool

/-- The recency pre-filter (source line 283): the item's username has a
`recent_users` entry younger than `TIME_THRESHOLD` seconds. -/
def recencyHit (cfg : Config) (ev : Event) (s : LoopState) : Bool :=
  match lookupUser s.recentUsers ev.item.username with
  | none => false
  | some t => ev.tCheck - t < cfg.TIME_THRESHOLD

/-- The history-buffer trim (source lines 312-313): `pop(0)` once when the
buffer length exceeds `IMAGES_TO_PROCESS`. -/
def trimPrevious (cfg : Config) (l : List Record) : List Record :=
  if l.length > cfg.IMAGES_TO_PROCESS then l.drop 1 else l

/-- The per-item body of the `for image in images` loop (source lines
282-315), before the quota and streak checks: pre-filters, candidate
production, dedup classification, insert and session bookkeeping. -/
def itemPhase (cfg : Config) (ev : Event) (s : LoopState) :
    LoopState × ItemResult :=
  if recencyHit cfg ev s then
    ({ s with skippedCount := s.skippedCount + 1 }, .skippedRecent)
  else if ev.item.id ∈ s.processedIds then
    ({ s with skippedCount := s.skippedCount + 1 }, .skippedAlready)
  else
    match ev.candidate with
    | none => (s, .noCandidate)
    | some r =>
      if is_duplicate ev.dbDupFails s.db r.username r.user_comment then
        ({ s with
            skippedCount := s.skippedCount + 1
            consecutiveDuplicateCount := s.consecutiveDuplicateCount + 1
            previousImages := trimPrevious cfg s.previousImages },
          .skippedDupStore)
      else if is_similar_entry s.existingEntries r then
        ({ s with
            skippedCount := s.skippedCount + 1
            consecutiveDuplicateCount := s.consecutiveDuplicateCount + 1
            previousImages := trimPrevious cfg s.previousImages },
          .skippedDupMemory)
      else
        let ins := insert_into_db ev.insertOk s.db s.existingEntries r
        ({ s with
            db := ins.1
            existingEntries := ins.2
            recentUsers := storeUser s.recentUsers r.username ev.tIns
            previousImages := trimPrevious cfg (s.previousImages ++ [r])
            processedIds := setAdd s.processedIds r.id
            processedCount := s.processedCount + 1
            consecutiveDuplicateCount := 0 },
          .inserted ev.insertOk)

/-- The quota and streak checks ending each item iteration (source lines
317-327): at `PROCESS_THRESHOLD` processed items, sleep `PAUSE_DURATION`,
zero `processed_count` and `skipped_count`, set `page = 1` and `break`;
otherwise at a duplicate streak of 10, `return`; otherwise fall through. -/
def controlPhase (cfg : Config) (s : LoopState) : LoopState × Control :=
  if s.processedCount ≥ cfg.PROCESS_THRESHOLD then
    ({ s with
        processedCount := 0
        skippedCount := 0
        page := 1
        sleeps := s.sleeps ++ [cfg.PAUSE_DURATION] },
      .quotaBreak)
  else if s.consecutiveDuplicateCount ≥ 10 then (s, .terminated)
  else (s, .next)

/-- One full item iteration. -/
def stepItem (cfg : Config) (ev : Event) (s : LoopState) :
    LoopState × ItemResult × Control :=
  let ip := itemPhase cfg ev s
  let c := controlPhase cfg ip.1
  (c.1, ip.2, c.2)

/-- The `for image in images` loop over one fetched page: stop early on a
quota `break` or a streak `return`. -/
def runItems (cfg : Config) : List Event → LoopState → LoopState × Control
  | [], s => (s, .next)
  | ev :: evs, s =>
    let r := stepItem cfg ev s
    match r.2.2 with
    | .next => runItems cfg evs r.1
    | c => (r.1, c)

/-- The outer `while True` loop (source lines 272-332), driven by the fetch
oracle: each element is the item-event list of one `fetch_images` call.  An
empty page advances `page` and sleeps the refresh interval; a nonempty page
runs the item loop, after which a streak `return` ends the run (`true`) and
a quota `break` or normal loop exit refetches (the quota reset page 1, a
normal exit the unchanged `page`).  The end-of-cycle pacing sleep depends
on wall-clock cycle duration and is not modelled. -/
def runPages (cfg : Config) : List (List Event) → LoopState → LoopState × Bool
  | [], s => (s, false)
  | evs :: rest, s =>
    match evs with
    | [] =>
      runPages cfg rest
        { s with page := s.page + 1, sleeps := s.sleeps ++ [cfg.REFRESH_INTERVAL] }
    | _ :: _ =>
      let r := runItems cfg evs s
      match r.2 with
      | .terminated => (r.1, true)
      | _ => runPages cfg rest r.1

/-- Erase the history buffer of a state (used to compare two loop states
up to their `previousImages` component). -/
def erasePrevious (s : LoopState) : LoopState :=
  { s with previousImages := [] }

/-! ## Branch characterizations of one item iteration -/

/-- Recency pre-filter branch (source lines 283-286). -/
lemma itemPhase_eq_recent (cfg : Config) (ev : Event) (s : LoopState)
    (h : recencyHit cfg ev s = true) :
    itemPhase cfg ev s =
      ({ s with skippedCount := s.skippedCount + 1 }, .skippedRecent) := by
  simp [itemPhase, h]

/-- Already-processed-id pre-filter branch (source lines 287-290). -/
lemma itemPhase_eq_already (cfg : Config) (ev : Event) (s : LoopState)
    (h1 : recencyHit cfg ev s = false) (h2 : ev.item.id ∈ s.processedIds) :
    itemPhase cfg ev s =
      ({ s with skippedCount := s.skippedCount + 1 }, .skippedAlready) := by
  simp [itemPhase, h1, h2]

/-- No-candidate branch: `process_image` returned `None`, the `if
processed_image` block is skipped entirely. -/
lemma itemPhase_eq_noCandidate (cfg : Config) (ev : Event) (s : LoopState)
    (h1 : recencyHit cfg ev s = false) (h2 : ev.item.id ∉ s.processedIds)
    (h3 : ev.candidate = none) :
    itemPhase cfg ev s = (s, .noCandidate) := by
  simp [itemPhase, h1, h2, h3]

/-- Store-duplicate branch (source lines 297-300). -/
lemma itemPhase_eq_dupStore (cfg : Config) (ev : Event) (s : LoopState)
    (r : Record) (h1 : recencyHit cfg ev s = false)
    (h2 : ev.item.id ∉ s.processedIds) (h3 : ev.candidate = some r)
    (h4 : is_duplicate ev.dbDupFails s.db r.username r.user_comment = true) :
    itemPhase cfg ev s =
      ({ s with
          skippedCount := s.skippedCount + 1
          consecutiveDuplicateCount := s.consecutiveDuplicateCount + 1
          previousImages := trimPrevious cfg s.previousImages },
        .skippedDupStore) := by
  simp [itemPhase, h1, h2, h3, h4]

/-- In-memory-duplicate branch (source lines 301-304). -/
lemma itemPhase_eq_dupMemory (cfg : Config) (ev : Event) (s : LoopState)
    (r : Record) (h1 : recencyHit cfg ev s = false)
    (h2 : ev.item.id ∉ s.processedIds) (h3 : ev.candidate = some r)
    (h4 : is_duplicate ev.dbDupFails s.db r.username r.user_comment = false)
    (h5 : is_similar_entry s.existingEntries r = true) :
    itemPhase cfg ev s =
      ({ s with
          skippedCount := s.skippedCount + 1
          consecutiveDuplicateCount := s.consecutiveDuplicateCount + 1
          previousImages := trimPrevious cfg s.previousImages },
        .skippedDupMemory) := by
  simp [itemPhase, h1, h2, h3, h4, h5]

/-- Insert branch (source lines 305-311). -/
lemma itemPhase_eq_insert (cfg : Config) (ev : Event) (s : LoopState)
    (r : Record) (h1 : recencyHit cfg ev s = false)
    (h2 : ev.item.id ∉ s.processedIds) (h3 : ev.candidate = some r)
    (h4 : is_duplicate ev.dbDupFails s.db r.username r.user_comment = false)
    (h5 : is_similar_entry s.existingEntries r = false) :
    itemPhase cfg ev s =
      ({ s with
          db := (insert_into_db ev.insertOk s.db s.existingEntries r).1
          existingEntries := (insert_into_db ev.insertOk s.db s.existingEntries r).2
          recentUsers := storeUser s.recentUsers r.username ev.tIns
          previousImages := trimPrevious cfg (s.previousImages ++ [r])
          processedIds := setAdd s.processedIds r.id
          processedCount := s.processedCount + 1
          consecutiveDuplicateCount := 0 },
        .inserted ev.insertOk) := by
  simp [itemPhase, h1, h2, h3, h4, h5]

/-- Exhaustive case split over the six outcomes of one item iteration. -/
lemma itemPhase_total (cfg : Config) (ev : Event) (s : LoopState) :
    (itemPhase cfg ev s).2 = .skippedRecent ∨
    (itemPhase cfg ev s).2 = .skippedAlready ∨
    (itemPhase cfg ev s).2 = .noCandidate ∨
    (itemPhase cfg ev s).2 = .skippedDupStore ∨
    (itemPhase cfg ev s).2 = .skippedDupMemory ∨
    (itemPhase cfg ev s).2 = .inserted ev.insertOk := by
  by_cases h1 : recencyHit cfg ev s
  · simp [itemPhase_eq_recent cfg ev s h1]
  · by_cases h2 : ev.item.id ∈ s.processedIds
    · simp [itemPhase_eq_already cfg ev s (by simpa using h1) h2]
    · match h3 : ev.candidate with
      | none =>
        simp [itemPhase_eq_noCandidate cfg ev s (by simpa using h1) h2 h3]
      | some r =>
        by_cases h4 : is_duplicate ev.dbDupFails s.db r.username r.user_comment
        · simp [itemPhase_eq_dupStore cfg ev s r (by simpa using h1) h2 h3 h4]
        · by_cases h5 : is_similar_entry s.existingEntries r
          · simp [itemPhase_eq_dupMemory cfg ev s r (by simpa using h1) h2 h3
              (by simpa using h4) h5]
          · simp [itemPhase_eq_insert cfg ev s r (by simpa using h1) h2 h3
              (by simpa using h4) (by simpa using h5)]

/-- `stepItem` classifies via `itemPhase`. -/
lemma stepItem_result (cfg : Config) (ev : Event) (s : LoopState) :
    (stepItem cfg ev s).2.1 = (itemPhase cfg ev s).2 := rfl

/-- `stepItem` transfers control via `controlPhase` on the item-phase
state. -/
lemma stepItem_control (cfg : Config) (ev : Event) (s : LoopState) :
    (stepItem cfg ev s).2.2 = (controlPhase cfg (itemPhase cfg ev s).1).2 := rfl

/-- `stepItem`'s final state is `controlPhase`'s on the item-phase state. -/
lemma stepItem_state (cfg : Config) (ev : Event) (s : LoopState) :
    (stepItem cfg ev s).1 = (controlPhase cfg (itemPhase cfg ev s).1).1 := rfl

/-- Below the processing quota, the item loop returns exactly when the
duplicate streak has reached 10. -/
lemma terminated_iff_streak (cfg : Config) (s1 : LoopState)
    (h : s1.processedCount < cfg.PROCESS_THRESHOLD) :
    (controlPhase cfg s1).2 = .terminated ↔
      10 ≤ s1.consecutiveDuplicateCount := by
  have hn : ¬ s1.processedCount ≥ cfg.PROCESS_THRESHOLD := by omega
  by_cases hd : 10 ≤ s1.consecutiveDuplicateCount <;> simp [controlPhase, hn, hd]

/-- The streak update of one item iteration, by classification. -/
lemma itemPhase_streak (cfg : Config) (ev : Event) (s : LoopState) :
    (itemPhase cfg ev s).1.consecutiveDuplicateCount =
      (match (itemPhase cfg ev s).2 with
        | .skippedDupStore => s.consecutiveDuplicateCount + 1
        | .skippedDupMemory => s.consecutiveDuplicateCount + 1
        | .inserted _ => 0
        | _ => s.consecutiveDuplicateCount) := by
  by_cases h1 : recencyHit cfg ev s
  · simp [itemPhase_eq_recent cfg ev s h1]
  · by_cases h2 : ev.item.id ∈ s.processedIds
    · simp [itemPhase_eq_already cfg ev s (by simpa using h1) h2]
    · match h3 : ev.candidate with
      | none =>
        simp [itemPhase_eq_noCandidate cfg ev s (by simpa using h1) h2 h3]
      | some r =>
        by_cases h4 : is_duplicate ev.dbDupFails s.db r.username r.user_comment
        · simp [itemPhase_eq_dupStore cfg ev s r (by simpa using h1) h2 h3 h4]
        · by_cases h5 : is_similar_entry s.existingEntries r
          · simp [itemPhase_eq_dupMemory cfg ev s r (by simpa using h1) h2 h3
              (by simpa using h4) h5]
          · simp [itemPhase_eq_insert cfg ev s r (by simpa using h1) h2 h3
              (by simpa using h4) (by simpa using h5)]

/-- C1: the duplicate-streak counter increments exactly when a candidate is
skipped as a duplicate (store-prefix test or in-memory exact test), a
successful insert resets it to 0 regardless of its prior value, skips of
any other kind leave it unchanged, and — whenever the quota `break` does
not preempt the check — the item iteration ends the run precisely when the
counter has reached 10. -/
theorem duplicate_streak_counter_discipline (cfg : Config) (ev : Event)
    (s : LoopState) :
    ((itemPhase cfg ev s).1.consecutiveDuplicateCount =
        s.consecutiveDuplicateCount + 1 ↔
      (itemPhase cfg ev s).2 = .skippedDupStore ∨
        (itemPhase cfg ev s).2 = .skippedDupMemory) ∧
    ((itemPhase cfg ev s).2 = .inserted true →
      (itemPhase cfg ev s).1.consecutiveDuplicateCount = 0) ∧
    ((itemPhase cfg ev s).2 = .skippedRecent ∨
        (itemPhase cfg ev s).2 = .skippedAlready ∨
        (itemPhase cfg ev s).2 = .noCandidate →
      (itemPhase cfg ev s).1.consecutiveDuplicateCount =
        s.consecutiveDuplicateCount) ∧
    ((itemPhase cfg ev s).1.processedCount < cfg.PROCESS_THRESHOLD →
      ((stepItem cfg ev s).2.2 = .terminated ↔
        10 ≤ (itemPhase cfg ev s).1.consecutiveDuplicateCount)) := by
  refine ⟨?_, ?_, ?_, fun hlt => ?_⟩
  · rw [itemPhase_streak]
    rcases itemPhase_total cfg ev s with h | h | h | h | h | h <;>
      rw [h] <;> simp
  · intro h
    rw [itemPhase_streak, h]
  · intro h
    rw [itemPhase_streak]
    rcases h with h | h | h <;> rw [h]
  · rw [stepItem_control]
    exact terminated_iff_streak cfg _ hlt

/-! ### Concrete fixtures for witness theorems -/

/-- A concrete listing item. -/
def itemAlice : Item where
  id := 1
  url := "url1"
  hash := "hash1"
  createdAt := none
  postId := 11
  username := "alice"
  web_url := "web1"

/-- The candidate record produced for `itemAlice`. -/
def recAlice : Record := format_image_data itemAlice ["a", "b"] "hello world"

/-- A session state whose store already holds `recAlice` (so the store
prefix test classifies it as a duplicate) and whose streak is 4. -/
def stateDup : LoopState :=
  { mkInitState [recAlice] with consecutiveDuplicateCount := 4 }

/-- A session state one duplicate away from the termination streak. -/
def stateNine : LoopState :=
  { mkInitState [recAlice] with consecutiveDuplicateCount := 9 }

/-- An item event offering `recAlice` with a healthy store. -/
def evAlice : Event where
  item := itemAlice
  tCheck := 100
  tIns := 100
  candidate := some recAlice
  dbDupFails := false
  insertOk := true

set_option maxRecDepth 10000 in
/-- Witness for C1 at concrete inputs: a store-duplicate skip increments
the streak from 4 to 5, and at streak 9 a further duplicate skip reaches 10
and terminates the run. -/
theorem duplicate_streak_counter_discipline_witness :
    (itemPhase CONFIG evAlice stateDup).1.consecutiveDuplicateCount =
        stateDup.consecutiveDuplicateCount + 1 ∧
      (stepItem CONFIG evAlice stateNine).2.2 = .terminated := by
  constructor
  · exact (duplicate_streak_counter_discipline CONFIG evAlice stateDup).1.mpr
      (by decide)
  · exact ((duplicate_streak_counter_discipline CONFIG evAlice
        stateNine).2.2.2 (by decide)).mpr (by decide)

/-- The skip-counter update of one item iteration, by classification. -/
lemma itemPhase_skipped (cfg : Config) (ev : Event) (s : LoopState) :
    (itemPhase cfg ev s).1.skippedCount =
      (match (itemPhase cfg ev s).2 with
        | .noCandidate => s.skippedCount
        | .inserted _ => s.skippedCount
        | _ => s.skippedCount + 1) := by
  by_cases h1 : recencyHit cfg ev s
  · simp [itemPhase_eq_recent cfg ev s h1]
  · by_cases h2 : ev.item.id ∈ s.processedIds
    · simp [itemPhase_eq_already cfg ev s (by simpa using h1) h2]
    · match h3 : ev.candidate with
      | none =>
        simp [itemPhase_eq_noCandidate cfg ev s (by simpa using h1) h2 h3]
      | some r =>
        by_cases h4 : is_duplicate ev.dbDupFails s.db r.username r.user_comment
        · simp [itemPhase_eq_dupStore cfg ev s r (by simpa using h1) h2 h3 h4]
        · by_cases h5 : is_similar_entry s.existingEntries r
          · simp [itemPhase_eq_dupMemory cfg ev s r (by simpa using h1) h2 h3
              (by simpa using h4) h5]
          · simp [itemPhase_eq_insert cfg ev s r (by simpa using h1) h2 h3
              (by simpa using h4) (by simpa using h5)]

/-- A no-candidate iteration leaves the whole session state untouched. -/
lemma itemPhase_noCandidate_frame (cfg : Config) (ev : Event) (s : LoopState)
    (h : (itemPhase cfg ev s).2 = .noCandidate) :
    (itemPhase cfg ev s).1 = s := by
  by_cases h1 : recencyHit cfg ev s
  · rw [itemPhase_eq_recent cfg ev s h1] at h ⊢
    exact absurd h (by simp)
  · by_cases h2 : ev.item.id ∈ s.processedIds
    · rw [itemPhase_eq_already cfg ev s (by simpa using h1) h2] at h ⊢
      exact absurd h (by simp)
    · match h3 : ev.candidate with
      | none =>
        rw [itemPhase_eq_noCandidate cfg ev s (by simpa using h1) h2 h3]
      | some r =>
        by_cases h4 : is_duplicate ev.dbDupFails s.db r.username r.user_comment
        · rw [itemPhase_eq_dupStore cfg ev s r (by simpa using h1) h2 h3 h4] at h
          exact absurd h (by simp)
        · by_cases h5 : is_similar_entry s.existingEntries r
          · rw [itemPhase_eq_dupMemory cfg ev s r (by simpa using h1) h2 h3
              (by simpa using h4) h5] at h
            exact absurd h (by simp)
          · rw [itemPhase_eq_insert cfg ev s r (by simpa using h1) h2 h3
              (by simpa using h4) (by simpa using h5)] at h
            exact absurd h (by simp)

/-- C10: the skipped counter increments exactly for recency-suppression
skips, already-processed-id skips and duplicate-classified skips; an item
whose processing yields no candidate (missing comment, empty tags, or an
error caught at the item boundary) changes nothing at all, in particular
the skipped counter. -/
theorem skipped_counter_frame (cfg : Config) (ev : Event) (s : LoopState) :
    ((itemPhase cfg ev s).1.skippedCount = s.skippedCount + 1 ↔
      (itemPhase cfg ev s).2 = .skippedRecent ∨
        (itemPhase cfg ev s).2 = .skippedAlready ∨
        (itemPhase cfg ev s).2 = .skippedDupStore ∨
        (itemPhase cfg ev s).2 = .skippedDupMemory) ∧
    ((itemPhase cfg ev s).2 = .noCandidate → (itemPhase cfg ev s).1 = s) := by
  refine ⟨?_, itemPhase_noCandidate_frame cfg ev s⟩
  rw [itemPhase_skipped]
  rcases itemPhase_total cfg ev s with h | h | h | h | h | h <;> rw [h] <;> simp

set_option maxRecDepth 10000 in
/-- Witness for C10 at concrete inputs: a no-candidate event leaves the
state untouched, and a store-duplicate skip increments the skip counter. -/
theorem skipped_counter_frame_witness :
    (itemPhase CONFIG { evAlice with candidate := none } (mkInitState [])).1 =
        mkInitState [] ∧
      (itemPhase CONFIG evAlice stateDup).1.skippedCount =
        stateDup.skippedCount + 1 := by
  constructor
  · exact (skipped_counter_frame CONFIG { evAlice with candidate := none }
      (mkInitState [])).2 (by decide)
  · exact (skipped_counter_frame CONFIG evAlice stateDup).1.mpr (by decide)

/-- C6: an item caught by either cheap pre-filter (a username processed
less than `TIME_THRESHOLD` seconds ago, or an id already in
`processedIds`) is skipped with only the skipped counter incremented, and
the iteration's outcome is independent of every expensive oracle (the
`process_image` result and the store oracles) — the Content Fetcher and Tag
Extractor are never consulted. -/
theorem prefilters_skip_cheaply (cfg : Config) (ev : Event) (s : LoopState)
    (h : recencyHit cfg ev s = true ∨ ev.item.id ∈ s.processedIds) :
    ((itemPhase cfg ev s).1 = { s with skippedCount := s.skippedCount + 1 } ∧
      ((itemPhase cfg ev s).2 = .skippedRecent ∨
        (itemPhase cfg ev s).2 = .skippedAlready)) ∧
    ∀ c d i t,
      itemPhase cfg
        { ev with candidate := c, dbDupFails := d, insertOk := i, tIns := t } s =
      itemPhase cfg ev s := by
  by_cases h1 : recencyHit cfg ev s
  · have e1 := itemPhase_eq_recent cfg ev s h1
    have e2 : ∀ c d i t,
        itemPhase cfg
          { ev with candidate := c, dbDupFails := d, insertOk := i, tIns := t } s =
          ({ s with skippedCount := s.skippedCount + 1 }, .skippedRecent) :=
      fun c d i t =>
        itemPhase_eq_recent cfg
          { ev with candidate := c, dbDupFails := d, insertOk := i, tIns := t } s h1
    exact ⟨by simp [e1], fun c d i t => by rw [e2 c d i t, e1]⟩
  · have h2 : ev.item.id ∈ s.processedIds := h.resolve_left (by simpa using h1)
    have e1 := itemPhase_eq_already cfg ev s (by simpa using h1) h2
    have e2 : ∀ c d i t,
        itemPhase cfg
          { ev with candidate := c, dbDupFails := d, insertOk := i, tIns := t } s =
          ({ s with skippedCount := s.skippedCount + 1 }, .skippedAlready) :=
      fun c d i t =>
        itemPhase_eq_already cfg
          { ev with candidate := c, dbDupFails := d, insertOk := i, tIns := t } s
          (by simpa using h1) h2
    exact ⟨by simp [e1], fun c d i t => by rw [e2 c d i t, e1]⟩

/-- A session state in which `alice` was processed at time 100 (and the
witness event arrives at time 100, within the threshold). -/
def stateRecent : LoopState :=
  { mkInitState [] with recentUsers := [("alice", 100)] }

set_option maxRecDepth 10000 in
/-- Witness for C6 at concrete inputs: a recency-hit item is skipped with
only the skip counter bumped, and the outcome is unchanged when the
expensive oracles are perturbed arbitrarily. -/
theorem prefilters_skip_cheaply_witness :
    ((itemPhase CONFIG evAlice stateRecent).1 =
        { stateRecent with skippedCount := stateRecent.skippedCount + 1 } ∧
      (itemPhase CONFIG evAlice stateRecent).2 = .skippedRecent) ∧
    itemPhase CONFIG
        { evAlice with
          candidate := none
          dbDupFails := true
          insertOk := false
          tIns := 999 } stateRecent =
      itemPhase CONFIG evAlice stateRecent := by
  have h := prefilters_skip_cheaply CONFIG evAlice stateRecent (Or.inl (by decide))
  refine ⟨⟨h.1.1, ?_⟩, h.2 none true false 999⟩
  rcases h.1.2 with h2 | h2
  · exact h2
  · exact absurd h2 (by decide)

/-- The processed-counter update of one item iteration, by classification. -/
lemma itemPhase_processed (cfg : Config) (ev : Event) (s : LoopState) :
    (itemPhase cfg ev s).1.processedCount =
      (match (itemPhase cfg ev s).2 with
        | .inserted _ => s.processedCount + 1
        | _ => s.processedCount) := by
  by_cases h1 : recencyHit cfg ev s
  · simp [itemPhase_eq_recent cfg ev s h1]
  · by_cases h2 : ev.item.id ∈ s.processedIds
    · simp [itemPhase_eq_already cfg ev s (by simpa using h1) h2]
    · match h3 : ev.candidate with
      | none =>
        simp [itemPhase_eq_noCandidate cfg ev s (by simpa using h1) h2 h3]
      | some r =>
        by_cases h4 : is_duplicate ev.dbDupFails s.db r.username r.user_comment
        · simp [itemPhase_eq_dupStore cfg ev s r (by simpa using h1) h2 h3 h4]
        · by_cases h5 : is_similar_entry s.existingEntries r
          · simp [itemPhase_eq_dupMemory cfg ev s r (by simpa using h1) h2 h3
              (by simpa using h4) h5]
          · simp [itemPhase_eq_insert cfg ev s r (by simpa using h1) h2 h3
              (by simpa using h4) (by simpa using h5)]

/-- The item phase never sleeps (all `time.sleep` sites of the item body
are in helpers outside the loop state). -/
lemma itemPhase_sleeps (cfg : Config) (ev : Event) (s : LoopState) :
    (itemPhase cfg ev s).1.sleeps = s.sleeps := by
  by_cases h1 : recencyHit cfg ev s
  · simp [itemPhase_eq_recent cfg ev s h1]
  · by_cases h2 : ev.item.id ∈ s.processedIds
    · simp [itemPhase_eq_already cfg ev s (by simpa using h1) h2]
    · match h3 : ev.candidate with
      | none =>
        simp [itemPhase_eq_noCandidate cfg ev s (by simpa using h1) h2 h3]
      | some r =>
        by_cases h4 : is_duplicate ev.dbDupFails s.db r.username r.user_comment
        · simp [itemPhase_eq_dupStore cfg ev s r (by simpa using h1) h2 h3 h4]
        · by_cases h5 : is_similar_entry s.existingEntries r
          · simp [itemPhase_eq_dupMemory cfg ev s r (by simpa using h1) h2 h3
              (by simpa using h4) h5]
          · simp [itemPhase_eq_insert cfg ev s r (by simpa using h1) h2 h3
              (by simpa using h4) (by simpa using h5)]

/-- `controlPhase` fires the quota `break` exactly at the threshold. -/
lemma controlPhase_quota_iff (cfg : Config) (s1 : LoopState) :
    (controlPhase cfg s1).2 = .quotaBreak ↔
      s1.processedCount ≥ cfg.PROCESS_THRESHOLD := by
  by_cases hT : s1.processedCount ≥ cfg.PROCESS_THRESHOLD
  · simp [controlPhase, hT]
  · by_cases hd : 10 ≤ s1.consecutiveDuplicateCount <;>
      simp [controlPhase, hT, hd]

/-- The state update of the quota `break`. -/
lemma controlPhase_state_quota (cfg : Config) (s1 : LoopState)
    (hT : s1.processedCount ≥ cfg.PROCESS_THRESHOLD) :
    (controlPhase cfg s1).1 =
      { s1 with
          processedCount := 0
          skippedCount := 0
          page := 1
          sleeps := s1.sleeps ++ [cfg.PAUSE_DURATION] } := by
  simp [controlPhase, hT]

/-- C4: from any state still below the processing threshold, the item
iteration fires the quota `break` exactly when the processed counter
reaches the threshold, and then it sleeps the fixed cool-down, leaves all
three session counters (processed, skipped, and the duplicate streak) at
zero, restarts page iteration at page 1, and does not terminate the run.
The duplicate streak is zero because the only way the processed counter
moves is a (possibly failed) insert, which zeroes the streak in the same
iteration; the quota reset itself assigns only the other two counters. -/
theorem quota_cooldown_reset_recycle (cfg : Config) (ev : Event)
    (s : LoopState) (h : s.processedCount < cfg.PROCESS_THRESHOLD) :
    ((stepItem cfg ev s).2.2 = .quotaBreak ↔
      (itemPhase cfg ev s).1.processedCount ≥ cfg.PROCESS_THRESHOLD) ∧
    ((stepItem cfg ev s).2.2 = .quotaBreak →
      (stepItem cfg ev s).1.processedCount = 0 ∧
      (stepItem cfg ev s).1.skippedCount = 0 ∧
      (stepItem cfg ev s).1.consecutiveDuplicateCount = 0 ∧
      (stepItem cfg ev s).1.page = 1 ∧
      (stepItem cfg ev s).1.sleeps = s.sleeps ++ [cfg.PAUSE_DURATION] ∧
      (stepItem cfg ev s).2.2 ≠ .terminated) := by
  rw [stepItem_control, stepItem_state]
  refine ⟨controlPhase_quota_iff cfg _, fun hq => ?_⟩
  have hT : (itemPhase cfg ev s).1.processedCount ≥ cfg.PROCESS_THRESHOLD :=
    (controlPhase_quota_iff cfg _).mp hq
  have hins : (itemPhase cfg ev s).1.consecutiveDuplicateCount = 0 := by
    rw [itemPhase_streak]
    rw [itemPhase_processed] at hT
    rcases itemPhase_total cfg ev s with h6 | h6 | h6 | h6 | h6 | h6 <;>
      rw [h6] <;> rw [h6] at hT <;> simp at hT ⊢ <;> omega
  rw [controlPhase_state_quota cfg _ hT]
  refine ⟨rfl, rfl, hins, rfl, ?_, by rw [hq]; exact fun hc => by cases hc⟩
  simp [itemPhase_sleeps]

/-- A state seven items short of nothing: 99 processed, some skips, so the
next successful insert reaches the threshold of 100. -/
def stateNinetyNine : LoopState :=
  { mkInitState [] with processedCount := 99, skippedCount := 7 }

set_option maxRecDepth 10000 in
/-- Witness for C4 at concrete inputs: the hundredth insert fires the
quota break, zeroes all three counters, resets the page and records the
cool-down sleep. -/
theorem quota_cooldown_reset_recycle_witness :
    (stepItem CONFIG evAlice stateNinetyNine).2.2 = .quotaBreak ∧
      (stepItem CONFIG evAlice stateNinetyNine).1.processedCount = 0 ∧
      (stepItem CONFIG evAlice stateNinetyNine).1.skippedCount = 0 ∧
      (stepItem CONFIG evAlice stateNinetyNine).1.consecutiveDuplicateCount = 0 ∧
      (stepItem CONFIG evAlice stateNinetyNine).1.page = 1 ∧
      (stepItem CONFIG evAlice stateNinetyNine).1.sleeps =
        stateNinetyNine.sleeps ++ [CONFIG.PAUSE_DURATION] := by
  have h := quota_cooldown_reset_recycle CONFIG evAlice stateNinetyNine
    (by decide)
  have hq : (stepItem CONFIG evAlice stateNinetyNine).2.2 = .quotaBreak :=
    h.1.mpr (by decide)
  have h2 := h.2 hq
  exact ⟨hq, h2.1, h2.2.1, h2.2.2.1, h2.2.2.2.1, h2.2.2.2.2.1⟩

/-- One `pop(0)` restores the capacity bound after at most one append. -/
lemma trimPrevious_length (cfg : Config) (l : List Record)
    (h : l.length ≤ cfg.IMAGES_TO_PROCESS + 1) :
    (trimPrevious cfg l).length ≤ cfg.IMAGES_TO_PROCESS := by
  unfold trimPrevious
  split
  · simp only [List.length_drop]
    omega
  · omega

/-- The item phase preserves the history-buffer bound. -/
lemma itemPhase_prev_bound (cfg : Config) (ev : Event) (s : LoopState)
    (h : s.previousImages.length ≤ cfg.IMAGES_TO_PROCESS) :
    (itemPhase cfg ev s).1.previousImages.length ≤ cfg.IMAGES_TO_PROCESS := by
  by_cases h1 : recencyHit cfg ev s
  · simpa [itemPhase_eq_recent cfg ev s h1] using h
  · by_cases h2 : ev.item.id ∈ s.processedIds
    · simpa [itemPhase_eq_already cfg ev s (by simpa using h1) h2] using h
    · match h3 : ev.candidate with
      | none =>
        simpa [itemPhase_eq_noCandidate cfg ev s (by simpa using h1) h2 h3]
          using h
      | some r =>
        by_cases h4 : is_duplicate ev.dbDupFails s.db r.username r.user_comment
        · rw [itemPhase_eq_dupStore cfg ev s r (by simpa using h1) h2 h3 h4]
          exact trimPrevious_length cfg _ (by omega)
        · by_cases h5 : is_similar_entry s.existingEntries r
          · rw [itemPhase_eq_dupMemory cfg ev s r (by simpa using h1) h2 h3
              (by simpa using h4) h5]
            exact trimPrevious_length cfg _ (by omega)
          · rw [itemPhase_eq_insert cfg ev s r (by simpa using h1) h2 h3
              (by simpa using h4) (by simpa using h5)]
            exact trimPrevious_length cfg _ (by simp; omega)

/-- The control phase never touches the history buffer. -/
lemma controlPhase_prev (cfg : Config) (s1 : LoopState) :
    (controlPhase cfg s1).1.previousImages = s1.previousImages := by
  by_cases hT : s1.processedCount ≥ cfg.PROCESS_THRESHOLD
  · simp [controlPhase, hT]
  · by_cases hd : 10 ≤ s1.consecutiveDuplicateCount <;>
      simp [controlPhase, hT, hd]

/-- One full item iteration preserves the history-buffer bound. -/
lemma stepItem_prev_bound (cfg : Config) (ev : Event) (s : LoopState)
    (h : s.previousImages.length ≤ cfg.IMAGES_TO_PROCESS) :
    (stepItem cfg ev s).1.previousImages.length ≤ cfg.IMAGES_TO_PROCESS := by
  rw [stepItem_state, controlPhase_prev]
  exact itemPhase_prev_bound cfg ev s h

/-- The item loop over one page preserves the history-buffer bound. -/
lemma runItems_prev_bound (cfg : Config) (evs : List Event) (s : LoopState)
    (h : s.previousImages.length ≤ cfg.IMAGES_TO_PROCESS) :
    (runItems cfg evs s).1.previousImages.length ≤ cfg.IMAGES_TO_PROCESS := by
  induction evs generalizing s with
  | nil => simpa [runItems] using h
  | cons ev evs ih =>
    rcases hc : (stepItem cfg ev s).2.2 with _ | _ | _ <;>
      simp [runItems, hc] <;>
      first
        | exact ih _ (stepItem_prev_bound cfg ev s h)
        | exact stepItem_prev_bound cfg ev s h

/-- The page loop preserves the history-buffer bound. -/
lemma runPages_prev_bound (cfg : Config) (fetches : List (List Event))
    (s : LoopState) (h : s.previousImages.length ≤ cfg.IMAGES_TO_PROCESS) :
    (runPages cfg fetches s).1.previousImages.length ≤
      cfg.IMAGES_TO_PROCESS := by
  induction fetches generalizing s with
  | nil => simpa [runPages] using h
  | cons evs rest ih =>
    match evs with
    | [] => exact ih _ (by simpa using h)
    | ev :: evs2 =>
      rcases hc : (runItems cfg (ev :: evs2) s).2 with _ | _ | _ <;>
        simp [runPages, hc] <;>
        first
          | exact runItems_prev_bound cfg _ s h
          | exact ih _ (runItems_prev_bound cfg _ s h)

/-- A candidate iteration that inserts appends the record to the history
buffer and then applies the one-element trim. -/
lemma itemPhase_inserted_prev (cfg : Config) (ev : Event) (s : LoopState)
    (r : Record) (b : Bool) (hres : (itemPhase cfg ev s).2 = .inserted b)
    (hc : ev.candidate = some r) :
    (itemPhase cfg ev s).1.previousImages =
      trimPrevious cfg (s.previousImages ++ [r]) := by
  by_cases h1 : recencyHit cfg ev s
  · rw [itemPhase_eq_recent cfg ev s h1] at hres
    exact absurd hres (by simp)
  · by_cases h2 : ev.item.id ∈ s.processedIds
    · rw [itemPhase_eq_already cfg ev s (by simpa using h1) h2] at hres
      exact absurd hres (by simp)
    · match h3 : ev.candidate with
      | none => exact absurd (h3 ▸ hc) (by simp)
      | some r2 =>
        have hr : r2 = r := by
          rw [h3] at hc
          exact Option.some_injective _ hc
        subst hr
        by_cases h4 : is_duplicate ev.dbDupFails s.db r2.username r2.user_comment
        · rw [itemPhase_eq_dupStore cfg ev s r2 (by simpa using h1) h2 h3 h4]
            at hres
          exact absurd hres (by simp)
        · by_cases h5 : is_similar_entry s.existingEntries r2
          · rw [itemPhase_eq_dupMemory cfg ev s r2 (by simpa using h1) h2 h3
              (by simpa using h4) h5] at hres
            exact absurd hres (by simp)
          · simp [itemPhase_eq_insert cfg ev s r2 (by simpa using h1) h2 h3
              (by simpa using h4) (by simpa using h5)]

/-- C8: from the startup state, the `previousImages` buffer never exceeds
the configured capacity `IMAGES_TO_PROCESS` after any run of the page
loop; and whenever an insert lands in a buffer already at capacity, the
buffer becomes the append followed by eviction of the oldest
(first-appended) entry. -/
theorem history_buffer_bounded_oldest_evicted :
    (∀ (cfg : Config) (db0 : List Record) (fetches : List (List Event)),
      (runPages cfg fetches (mkInitState db0)).1.previousImages.length ≤
        cfg.IMAGES_TO_PROCESS) ∧
    (∀ (cfg : Config) (ev : Event) (s : LoopState) (r : Record) (b : Bool),
      (itemPhase cfg ev s).2 = .inserted b → ev.candidate = some r →
      s.previousImages.length = cfg.IMAGES_TO_PROCESS →
      (itemPhase cfg ev s).1.previousImages =
        (s.previousImages ++ [r]).drop 1) := by
  constructor
  · intro cfg db0 fetches
    exact runPages_prev_bound cfg fetches _ (by simp [mkInitState])
  · intro cfg ev s r b hres hc hlen
    rw [itemPhase_inserted_prev cfg ev s r b hres hc]
    unfold trimPrevious
    rw [if_pos (by simp [hlen])]

/-- A small-capacity configuration for the eviction witness. -/
def cfgSmallBuf : Config := { CONFIG with IMAGES_TO_PROCESS := 2 }

/-- A state whose history buffer is exactly at the (small) capacity. -/
def stateFullBuf : LoopState :=
  { mkInitState [] with
    previousImages := [format_image_data itemAlice ["x"] "one",
      format_image_data itemAlice ["y"] "two"] }

set_option maxRecDepth 10000 in
/-- Witness for C8 at concrete inputs: inserting into a buffer at capacity
2 appends the new record and evicts the oldest entry. -/
theorem history_buffer_bounded_oldest_evicted_witness :
    (itemPhase cfgSmallBuf evAlice stateFullBuf).1.previousImages =
      (stateFullBuf.previousImages ++ [recAlice]).drop 1 := by
  exact history_buffer_bounded_oldest_evicted.2 cfgSmallBuf evAlice
    stateFullBuf recAlice true (by decide) (by decide) (by decide)

/-- The item phase is oblivious to the history buffer and to the
similarity threshold: classification and every other state component are
unchanged when `previousImages` is replaced arbitrarily and
`SIMILARITY_THRESHOLD` is replaced arbitrarily. -/
lemma itemPhase_indep (cfg : Config) (x : Rat) (ev : Event) (s : LoopState)
    (l : List Record) :
    (itemPhase { cfg with SIMILARITY_THRESHOLD := x } ev
        { s with previousImages := l }).2 = (itemPhase cfg ev s).2 ∧
    erasePrevious (itemPhase { cfg with SIMILARITY_THRESHOLD := x } ev
        { s with previousImages := l }).1 =
      erasePrevious (itemPhase cfg ev s).1 := by
  by_cases h1 : recencyHit cfg ev s
  · have h1b : recencyHit { cfg with SIMILARITY_THRESHOLD := x } ev
        { s with previousImages := l } = true := h1
    rw [itemPhase_eq_recent cfg ev s h1,
      itemPhase_eq_recent _ ev { s with previousImages := l } h1b]
    exact ⟨rfl, rfl⟩
  · have h1b : recencyHit { cfg with SIMILARITY_THRESHOLD := x } ev
        { s with previousImages := l } = false := by simpa using h1
    by_cases h2 : ev.item.id ∈ s.processedIds
    · rw [itemPhase_eq_already cfg ev s (by simpa using h1) h2,
        itemPhase_eq_already _ ev { s with previousImages := l } h1b h2]
      exact ⟨rfl, rfl⟩
    · match h3 : ev.candidate with
      | none =>
        rw [itemPhase_eq_noCandidate cfg ev s (by simpa using h1) h2 h3,
          itemPhase_eq_noCandidate _ ev { s with previousImages := l } h1b h2 h3]
        exact ⟨rfl, rfl⟩
      | some r =>
        by_cases h4 : is_duplicate ev.dbDupFails s.db r.username r.user_comment
        · rw [itemPhase_eq_dupStore cfg ev s r (by simpa using h1) h2 h3 h4,
            itemPhase_eq_dupStore _ ev { s with previousImages := l } r h1b h2
              h3 h4]
          exact ⟨rfl, rfl⟩
        · by_cases h5 : is_similar_entry s.existingEntries r
          · rw [itemPhase_eq_dupMemory cfg ev s r (by simpa using h1) h2 h3
                (by simpa using h4) h5,
              itemPhase_eq_dupMemory _ ev { s with previousImages := l } r h1b
                h2 h3 (by simpa using h4) h5]
            exact ⟨rfl, rfl⟩
          · rw [itemPhase_eq_insert cfg ev s r (by simpa using h1) h2 h3
                (by simpa using h4) (by simpa using h5),
              itemPhase_eq_insert _ ev { s with previousImages := l } r h1b h2
                h3 (by simpa using h4) (by simpa using h5)]
            exact ⟨rfl, rfl⟩

/-- The control phase is oblivious to the history buffer and the
similarity threshold. -/
lemma controlPhase_state_other (cfg : Config) (s1 : LoopState)
    (hT : ¬ s1.processedCount ≥ cfg.PROCESS_THRESHOLD) :
    (controlPhase cfg s1).1 = s1 := by
  by_cases hd : 10 ≤ s1.consecutiveDuplicateCount <;>
    simp [controlPhase, hT, hd]

lemma controlPhase_indep (cfg : Config) (x : Rat) (s1 t1 : LoopState)
    (h : erasePrevious t1 = erasePrevious s1) :
    (controlPhase { cfg with SIMILARITY_THRESHOLD := x } t1).2 =
        (controlPhase cfg s1).2 ∧
    erasePrevious (controlPhase { cfg with SIMILARITY_THRESHOLD := x } t1).1 =
      erasePrevious (controlPhase cfg s1).1 := by
  have hp0 := congrArg LoopState.processedCount h
  have hst0 := congrArg LoopState.consecutiveDuplicateCount h
  have hru0 := congrArg LoopState.recentUsers h
  have hpi0 := congrArg LoopState.processedIds h
  have hex0 := congrArg LoopState.existingEntries h
  have hdb0 := congrArg LoopState.db h
  have hsl0 := congrArg LoopState.sleeps h
  have hp : t1.processedCount = s1.processedCount := hp0
  have hst : t1.consecutiveDuplicateCount = s1.consecutiveDuplicateCount := hst0
  have hru : t1.recentUsers = s1.recentUsers := hru0
  have hpi : t1.processedIds = s1.processedIds := hpi0
  have hex : t1.existingEntries = s1.existingEntries := hex0
  have hdb : t1.db = s1.db := hdb0
  have hsl : t1.sleeps = s1.sleeps := hsl0
  by_cases hT : s1.processedCount ≥ cfg.PROCESS_THRESHOLD
  · have hT2 : t1.processedCount ≥ cfg.PROCESS_THRESHOLD := by omega
    constructor
    · rw [(controlPhase_quota_iff cfg s1).mpr hT,
        (controlPhase_quota_iff { cfg with SIMILARITY_THRESHOLD := x } t1).mpr
          hT2]
    · rw [controlPhase_state_quota cfg s1 hT,
        controlPhase_state_quota { cfg with SIMILARITY_THRESHOLD := x } t1 hT2]
      simp [erasePrevious, LoopState.mk.injEq, hst, hru, hpi, hex, hdb, hsl]
  · have hT2 : ¬ t1.processedCount ≥ cfg.PROCESS_THRESHOLD := by omega
    refine ⟨?_, ?_⟩
    · by_cases hd : 10 ≤ s1.consecutiveDuplicateCount
      · have hd2 : 10 ≤ t1.consecutiveDuplicateCount := by omega
        simp [controlPhase, hT, hT2, hd, hd2]
      · have hd2 : ¬ 10 ≤ t1.consecutiveDuplicateCount := by omega
        simp [controlPhase, hT, hT2, hd, hd2]
    · rw [controlPhase_state_other cfg s1 hT,
        controlPhase_state_other { cfg with SIMILARITY_THRESHOLD := x } t1 hT2]
      exact h

/-- C9: the fuzzy-similarity test is never consulted by the ingestion
loop and the contents of `previousImages` never influence any dedup or
insert decision: for any two session states differing only in
`previousImages`, and any replacement of the similarity threshold (the
only quantity `is_similar` compares against), one item iteration produces
the same classification, the same control transfer, and the same state up
to the `previousImages` component. -/
theorem fuzzy_similarity_and_history_without_influence (cfg : Config)
    (x : Rat) (ev : Event) (s : LoopState) (l : List Record) :
    (stepItem { cfg with SIMILARITY_THRESHOLD := x } ev
        { s with previousImages := l }).2 = (stepItem cfg ev s).2 ∧
    erasePrevious (stepItem { cfg with SIMILARITY_THRESHOLD := x } ev
        { s with previousImages := l }).1 =
      erasePrevious (stepItem cfg ev s).1 := by
  have hi := itemPhase_indep cfg x ev s l
  have hcp := controlPhase_indep cfg x _ _ hi.2
  refine ⟨Prod.ext_iff.mpr ⟨?_, ?_⟩, ?_⟩
  · rw [stepItem_result, stepItem_result]
    exact hi.1
  · rw [stepItem_control, stepItem_control]
    exact hcp.1
  · rw [stepItem_state, stepItem_state]
    exact hcp.2

/-! ## C2: behavior when the store insert fails -/

/-- A session state with an empty store and a nonzero duplicate streak. -/
def stateStreak3 : LoopState :=
  { mkInitState [] with consecutiveDuplicateCount := 3 }

/-- The `evAlice` event with a failing store insert. -/
def evAliceInsFail : Event := { evAlice with insertOk := false }

set_option maxRecDepth 10000 in
/-- Counterexample to C2 as stated: at a concrete non-duplicate candidate
whose insert raises, the item is indeed absent from the store and from
`existingEntries`, yet the processed counter advances from 0 to 1, the
duplicate streak is reset from 3 to 0, and every piece of session
bookkeeping (recentUsers timestamp, previousImages append, processedIds
add) takes place — because `insert_into_db` swallows its own exception and
the caller cannot observe the failure. -/
theorem insert_failure_claim_counterexample :
    (itemPhase CONFIG evAliceInsFail stateStreak3).1.db = [] ∧
    (itemPhase CONFIG evAliceInsFail stateStreak3).1.existingEntries = [] ∧
    stateStreak3.processedCount = 0 ∧
    (itemPhase CONFIG evAliceInsFail stateStreak3).1.processedCount = 1 ∧
    stateStreak3.consecutiveDuplicateCount = 3 ∧
    (itemPhase CONFIG evAliceInsFail stateStreak3).1.consecutiveDuplicateCount
      = 0 ∧
    (itemPhase CONFIG evAliceInsFail stateStreak3).1.recentUsers =
      [("alice", 100)] ∧
    (itemPhase CONFIG evAliceInsFail stateStreak3).1.processedIds = [1] ∧
    (itemPhase CONFIG evAliceInsFail stateStreak3).1.previousImages =
      [recAlice] := by
  decide

/-- C2 (amended): when the single-record insert fails (raises), the
failure is swallowed inside `insert_into_db`: the row reaches neither the
store table nor `existingEntries` and no exception escapes, so the item is
silently lost from the store — but the controller, unable to observe the
failure, still advances the processed counter, resets the duplicate
streak to zero, and performs all session bookkeeping (recentUsers
timestamp, previousImages append, processedIds add). -/
theorem insert_failure_swallowed_but_counted (cfg : Config) (ev : Event)
    (s : LoopState) (r : Record)
    (hres : (itemPhase cfg ev s).2 = .inserted false)
    (hc : ev.candidate = some r) :
    (itemPhase cfg ev s).1.db = s.db ∧
    (itemPhase cfg ev s).1.existingEntries = s.existingEntries ∧
    (itemPhase cfg ev s).1.processedCount = s.processedCount + 1 ∧
    (itemPhase cfg ev s).1.consecutiveDuplicateCount = 0 ∧
    (itemPhase cfg ev s).1.recentUsers =
      storeUser s.recentUsers r.username ev.tIns ∧
    (itemPhase cfg ev s).1.processedIds = setAdd s.processedIds r.id ∧
    (itemPhase cfg ev s).1.previousImages =
      trimPrevious cfg (s.previousImages ++ [r]) := by
  by_cases h1 : recencyHit cfg ev s
  · rw [itemPhase_eq_recent cfg ev s h1] at hres
    exact absurd hres (by simp)
  · by_cases h2 : ev.item.id ∈ s.processedIds
    · rw [itemPhase_eq_already cfg ev s (by simpa using h1) h2] at hres
      exact absurd hres (by simp)
    · match h3 : ev.candidate with
      | none => exact absurd (h3 ▸ hc) (by simp)
      | some r2 =>
        have hr : r2 = r := by
          rw [h3] at hc
          exact Option.some_injective _ hc
        subst hr
        by_cases h4 : is_duplicate ev.dbDupFails s.db r2.username r2.user_comment
        · rw [itemPhase_eq_dupStore cfg ev s r2 (by simpa using h1) h2 h3 h4]
            at hres
          exact absurd hres (by simp)
        · by_cases h5 : is_similar_entry s.existingEntries r2
          · rw [itemPhase_eq_dupMemory cfg ev s r2 (by simpa using h1) h2 h3
              (by simpa using h4) h5] at hres
            exact absurd hres (by simp)
          · have he := itemPhase_eq_insert cfg ev s r2 (by simpa using h1) h2
              h3 (by simpa using h4) (by simpa using h5)
            have hok : ev.insertOk = false := by
              rw [he] at hres
              simpa using hres
            rw [he]
            simp [insert_into_db, hok]

set_option maxRecDepth 10000 in
/-- Witness for the amended C2 at concrete inputs. -/
theorem insert_failure_swallowed_but_counted_witness :
    (itemPhase CONFIG evAliceInsFail stateStreak3).1.db = stateStreak3.db ∧
    (itemPhase CONFIG evAliceInsFail stateStreak3).1.existingEntries =
      stateStreak3.existingEntries ∧
    (itemPhase CONFIG evAliceInsFail stateStreak3).1.processedCount =
      stateStreak3.processedCount + 1 ∧
    (itemPhase CONFIG evAliceInsFail stateStreak3).1.consecutiveDuplicateCount
      = 0 ∧
    (itemPhase CONFIG evAliceInsFail stateStreak3).1.recentUsers =
      storeUser stateStreak3.recentUsers recAlice.username evAliceInsFail.tIns ∧
    (itemPhase CONFIG evAliceInsFail stateStreak3).1.processedIds =
      setAdd stateStreak3.processedIds recAlice.id ∧
    (itemPhase CONFIG evAliceInsFail stateStreak3).1.previousImages =
      trimPrevious CONFIG (stateStreak3.previousImages ++ [recAlice]) := by
  exact insert_failure_swallowed_but_counted CONFIG evAliceInsFail stateStreak3
    recAlice (by decide) (by decide)

/-! ## C5: session-reinitialization exhaustion during extraction -/

/-- An item oracle whose first extraction attempt hits a session-level
fault and whose driver-creation attempts all fail. -/
def oracleReinitFail : ItemOracle where
  downloadOk := true
  exifComment := some (.strv "prompt")
  attempts := fun _ => .sessionFault (fun _ => false)

/-- Counterexample to C5 as stated: at a concrete item whose tag
extraction triggers session reinitialization and whose driver-creation
attempts all fail, the exhaustion does raise `WebDriverException` out of
`extract_image_details` — but `process_image`'s broad `except Exception`
catches it at the item boundary, yielding the no-candidate result: the
failure is downgraded to a per-item skip, and the run is not aborted. -/
theorem reinit_exhaustion_claim_counterexample :
    initialize_driver CONFIG (fun _ => false) = .error .webDriverExc ∧
    extract_image_details CONFIG oracleReinitFail.attempts =
      .error .webDriverExc ∧
    processImageRaw CONFIG itemAlice oracleReinitFail =
      .error .webDriverExc ∧
    process_image CONFIG itemAlice oracleReinitFail = none := by
  decide

/-- Exhausted driver creation always raises. -/
lemma driverGo_all_fail (tries : Nat → Bool) (h : ∀ n, tries n = false) :
    ∀ retries fuel, driverGo tries retries fuel = .error .webDriverExc := by
  intro retries fuel
  induction fuel generalizing retries with
  | zero => rfl
  | succ fuel ih => simp [driverGo, h retries, ih]

/-- C5 (amended): when rendering-session reinitialization exhausts its
fixed retry bound it raises a `WebDriverException`; when that happens
during a per-item tag-extraction attempt, the exception escaping
`extract_image_details` is caught by the per-item `except Exception`
boundary and the failure is downgraded to a per-item skip (no candidate),
rather than aborting the run.  It is fatal only where no per-item boundary
intervenes — such as the initial session creation at startup, where the
raised exception propagates to the top level. -/
theorem reinit_exhaustion_per_item_skip (cfg : Config) :
    (∀ tries : Nat → Bool, (∀ n, tries n = false) →
      initialize_driver cfg tries = .error .webDriverExc) ∧
    (∀ tries : Nat → Bool, (∀ n, tries n = false) → 0 < cfg.MAX_RETRIES →
      extract_image_details cfg (fun _ => .sessionFault tries) =
        .error .webDriverExc) ∧
    (∀ (item : Item) (o : ItemOracle) (e : PyExc),
      processImageRaw cfg item o = .error e →
      process_image cfg item o = none) := by
  refine ⟨fun tries h => driverGo_all_fail tries h 0 _, ?_, ?_⟩
  · intro tries h hM
    obtain ⟨fuel, hfuel⟩ : ∃ fuel, cfg.MAX_RETRIES = fuel + 1 :=
      ⟨cfg.MAX_RETRIES - 1, by omega⟩
    simp [extract_image_details, hfuel, extractGo, initialize_driver,
      driverGo_all_fail tries h 0 _]
  · intro item o e herr
    simp [process_image, herr]

set_option maxRecDepth 10000 in
/-- Witness for the amended C5 at concrete inputs. -/
theorem reinit_exhaustion_per_item_skip_witness :
    initialize_driver CONFIG (fun _ => false) = .error .webDriverExc ∧
      extract_image_details CONFIG (fun _ => .sessionFault (fun _ => false)) =
        .error .webDriverExc ∧
      process_image CONFIG itemAlice oracleReinitFail = none := by
  refine ⟨(reinit_exhaustion_per_item_skip CONFIG).1 (fun _ => false)
      (fun n => rfl),
    (reinit_exhaustion_per_item_skip CONFIG).2.1 (fun _ => false)
      (fun n => rfl) (by decide),
    (reinit_exhaustion_per_item_skip CONFIG).2.2 itemAlice oracleReinitFail
      .webDriverExc (by decide)⟩

/-! ## C3: zero collected tags does not reach the retry path -/

/-- Attempt oracle: the first page load succeeds but yields only empty and
whitespace texts (zero tags); every later attempt would yield a tag. -/
def attemptsZeroThenGood : Nat → AttemptOut :=
  fun n => if n = 0 then .loaded ["", "  "] else .loaded ["tag"]

/-- C3, evaluated at the failing input: a successfully loaded page with
zero non-empty tag texts makes the source raise
`ValueError("No tags found on page.")` inside the retry loop, but the
`except (TimeoutException, WebDriverException)` clause does not catch
`ValueError`, so the extractor gives up immediately — even though the very
next attempt would have produced the tag `tag` — and the per-item boundary
turns the escaped exception into the no-candidate skip.  The claimed
behavior (retry up to `MAX_RETRIES`, only then return empty tags) never
happens. -/
theorem zero_tags_raises_instead_of_retrying :
    collectTags ["", "  "] = [] ∧
    collectTags ["tag"] = ["tag"] ∧
    extract_image_details CONFIG attemptsZeroThenGood = .error .valueErrExc ∧
    process_image CONFIG itemAlice
      { downloadOk := true
        exifComment := some (.strv "prompt")
        attempts := attemptsZeroThenGood } = none := by
  decide

/-! ## C7: the comment decoding policy -/

/-- The marker-plus-invalid-payload bytes refuting C7's fallback clause:
the 8-byte wide-character marker followed by `0xFF`, which every decoder
rejects. -/
def bytesMarkerFF : List Nat := [85, 78, 73, 67, 79, 68, 69, 0, 0xFF]

/-- Counterexample to C7 as stated: on a marker-prefixed byte string whose
payload defeats all three decoders, the fallback is the string coercion of
the stripped bytes, not of the raw comment value — the source rebinds
`value` to the stripped slice before `return str(value)`. -/
theorem decode_fallback_claim_counterexample :
    decode_user_comment (.bytes bytesMarkerFF) ≠ pyStr (.bytes bytesMarkerFF) ∧
    decode_user_comment (.bytes bytesMarkerFF) =
      pyStr (.bytes (bytesMarkerFF.drop 8)) := by
  decide

/-- C7 (amended): for a byte-string comment value, the wide-character
marker (when present) is stripped first; decoding of the stripped bytes is
then attempted as UTF-16-BE, then UTF-8, then ASCII, in that order,
returning the first success with embedded null characters removed; if all
three fail, the result is the direct string coercion of the
marker-stripped byte string (not of the raw value); a non-bytes value is
returned as its direct string coercion. -/
theorem comment_decoding_policy (b : List Nat) (s : String) :
    (utf16beDecode (stripMarker b) = some s →
      decode_user_comment (.bytes b) = stripNulls s) ∧
    (utf16beDecode (stripMarker b) = none →
      utf8Decode (stripMarker b) = some s →
      decode_user_comment (.bytes b) = stripNulls s) ∧
    (utf16beDecode (stripMarker b) = none →
      utf8Decode (stripMarker b) = none →
      asciiDecode (stripMarker b) = some s →
      decode_user_comment (.bytes b) = stripNulls s) ∧
    (utf16beDecode (stripMarker b) = none →
      utf8Decode (stripMarker b) = none →
      asciiDecode (stripMarker b) = none →
      decode_user_comment (.bytes b) = pyStr (.bytes (stripMarker b))) ∧
    (∀ t, decode_user_comment (.strv t) = pyStr (.strv t)) := by
  refine ⟨fun h1 => ?_, fun h1 h2 => ?_, fun h1 h2 h3 => ?_,
    fun h1 h2 h3 => ?_, fun t => rfl⟩ <;>
    simp [decode_user_comment, tryEncodings, h1]
  · simp [h2]
  · simp [h2, h3]
  · simp [h2, h3]

set_option maxRecDepth 10000 in
/-- Witness for the amended C7 at concrete inputs: a marker-prefixed
UTF-16-BE payload decodes on the first attempt, and a byte string that
UTF-16-BE rejects (odd length) falls through to UTF-8. -/
theorem comment_decoding_policy_witness :
    decode_user_comment (.bytes [85, 78, 73, 67, 79, 68, 69, 0, 0, 65]) =
        stripNulls "A" ∧
      decode_user_comment (.bytes [97, 195, 169]) = stripNulls "aé" := by
  refine ⟨(comment_decoding_policy [85, 78, 73, 67, 79, 68, 69, 0, 0, 65]
      "A").1 (by decide),
    (comment_decoding_policy [97, 195, 169] "aé").2.1 (by decide)
      (by decide)⟩
